import Mathlib

/-!
Verification of the Telegram Web photo-upload content script
(`src/content_script.js`) against its natural-language specification.

The JavaScript is shallowly embedded: pure computations become Lean
functions, the DOM/timer environment becomes explicit scenario records,
and each stateful routine becomes a function from a scenario to the trace
of primitive actions it performs (dispatched synthetic events, sleeps,
observer subscriptions) together with its outcome (`Except` for routines
that can throw).
-/

namespace TelegramUploader

/-- ASCII whitespace as removed by JavaScript `String.prototype.trim`. -/
def isSpaceChar (c : Char) : Bool :=
  c == ' ' || c == '\t' || c == '\n' || c == '\r'

/-- `String.prototype.trim`: drop whitespace from both ends. -/
def trimChars (s : List Char) : List Char :=
  ((s.dropWhile isSpaceChar).reverse.dropWhile isSpaceChar).reverse

/-- `String.prototype.toLowerCase` on one ASCII character. -/
def toLowerChar (c : Char) : Char :=
  if 65 ≤ c.toNat && c.toNat ≤ 90 then Char.ofNat (c.toNat + 32) else c

/-- `s.trim().toLowerCase()` as the script applies it to button text. -/
def normText (s : String) : List Char :=
  (trimChars s.data).map toLowerChar

/-- `true` iff `sub` is a contiguous sub-sequence of the character list. -/
def strContainsAux (sub : List Char) : List Char → Bool
  | [] => sub.isEmpty
  | c :: rest => sub.isPrefixOf (c :: rest) || strContainsAux sub rest

/-- JavaScript `String.prototype.includes`: `true` iff `sub` occurs as a
substring of `s` (case sensitive). -/
def strContains (s sub : String) : Bool :=
  strContainsAux sub.data s.data

/-- A `<button>` element as the script observes it: its text content, its
`className` string, and whether it is visible (`offsetParent !== null`). -/
structure ButtonEl where
  textContent : String
  className : String
  visible : Bool
deriving DecidableEq

/-- The primary classification used at `content_script.js:346-349` and
`363-367`: trimmed lower-cased text is exactly `"send"` and the class string
contains `"primary"`. -/
def isPrimarySend (b : ButtonEl) : Bool :=
  normText b.textContent == "send".data && strContains b.className "primary"

/-- First fallback (`content_script.js:370-374`): trimmed lower-cased text is
exactly `"send"`, any class. -/
def isTextSend (b : ButtonEl) : Bool :=
  normText b.textContent == "send".data

/-- Second fallback (`content_script.js:376-382`): text `"send"` and the class
string contains `"Button"` (case sensitive). -/
def isButtonClassSend (b : ButtonEl) : Bool :=
  normText b.textContent == "send".data && strContains b.className "Button"

/-- The send-button selection logic of `clickSendButton`
(`content_script.js:357-390`): filter to visible buttons, then try the
primary classification, then text-only, then `"Button"`-class, each by
document order; `none` models the `throw` at line 389. -/
def findSendButton (buttons : List ButtonEl) : Option ButtonEl :=
  let visibleButtons := buttons.filter (fun b => b.visible)
  match visibleButtons.find? isPrimarySend with
  | some b => some b
  | none =>
    match visibleButtons.find? isTextSend with
    | some b => some b
    | none => visibleButtons.find? isButtonClassSend

/-- Outcome of one `waitUntil` run (`content_script.js:39-62`).  The model
distinguishes how the underlying promise settles:
* `resolved tick` — the predicate returned `true` at poll tick `tick`;
* `rejectedErr e tick` — the predicate threw during the synchronous first
  check (inside the `Promise` executor), so the promise rejects with `e`;
* `uncaught e tick` — the predicate threw inside a `setTimeout` callback
  (tick ≥ 1): the exception escapes to the event loop and the promise
  never settles;
* `timedOut msg tick` — the timeout branch at line 51-54 rejected;
* `outOfFuel` — model artifact, unreachable when the poll interval is ≥ 1. -/
inductive WaitOutcome where
  | resolved (tick : Nat)
  | rejectedErr (msg : String) (tick : Nat)
  | uncaught (msg : String) (tick : Nat)
  | timedOut (msg : String) (tick : Nat)
  | outOfFuel
deriving DecidableEq

/-- One `check` invocation of `waitUntil` at poll tick `n` (model time
`n * interval` elapsed), followed by the recursive re-scheduling at line 57.
The predicate is modelled as `Nat → Except String Bool` (what evaluating it
at tick `n` does: return a boolean or throw). -/
def waitUntilAux (cond : Nat → Except String Bool) (timeout interval : Nat) :
    Nat → Nat → WaitOutcome
  | 0, _ => .outOfFuel
  | fuel + 1, n =>
    match cond n with
    | .error e => if n = 0 then .rejectedErr e 0 else .uncaught e n
    | .ok true => .resolved n
    | .ok false =>
      if timeout ≤ n * interval then
        .timedOut ("Timeout waiting for condition after " ++ toString timeout ++ "ms") n
      else
        waitUntilAux cond timeout interval fuel (n + 1)

/-- `waitUntil(condition, timeout, checkInterval)` (`content_script.js:39-62`):
check immediately, then every `interval` model milliseconds, rejecting with a
timeout error once `timeout` has elapsed at a check where the predicate is
still false.  Fuel `timeout + 1` is enough whenever `interval ≥ 1`. -/
def waitUntil (cond : Nat → Except String Bool) (timeout interval : Nat) : WaitOutcome :=
  waitUntilAux cond timeout interval (timeout + 1) 0

/-- Primitive actions performed by the MutationObserver-based waits
(`waitForElement`, `content_script.js:71-102`, and `waitForClass`,
`content_script.js:111-134`): creating/disconnecting the observer,
settling the promise, and the safety timer firing.  `reject` records a
call to the promise's `reject` function (a no-op if already settled). -/
inductive ObsAction where
  | subscribe
  | disconnect
  | resolve
  | reject
  | timerFires
deriving DecidableEq

/-- Environment of one observer wait: whether the watched predicate
(element exists / class present) holds at call time, the times at which
mutation batches are delivered, whether the predicate holds when the
callback runs at a given time, and the safety timeout. -/
structure ObsScenario where
  holdsNow : Bool
  notifications : List Nat
  holdsAt : Nat → Bool
  timeout : Nat

/-- Shared runtime behaviour of `waitForElement` and `waitForClass`
(their bodies are line-for-line parallel): if the predicate already holds,
return immediately with no subscription and no timer.  Otherwise subscribe
and install a safety timer at `timeout` that is never cleared (the source
contains no `clearTimeout`).  Mutation batches delivered before the timer
run the callback; the first one at which the predicate holds disconnects
and resolves.  The timer then still fires, disconnecting again and calling
`reject`.  If no batch succeeded, the timer's `reject` settles the promise.
Returns the action trace and whether the wait resolved successfully. -/
def observerWaitRun (sc : ObsScenario) : List ObsAction × Bool :=
  if sc.holdsNow then ([], true)
  else
    let pre := sc.notifications.filter (fun t => decide (t < sc.timeout))
    match pre.find? sc.holdsAt with
    | some _ =>
      ([.subscribe, .disconnect, .resolve, .timerFires, .disconnect, .reject], true)
    | none => ([.subscribe, .timerFires, .disconnect, .reject], false)

/-- `waitForElement(selector, timeout)` (`content_script.js:71-102`), with the
predicate "a node matching `selector` exists" abstracted into the scenario. -/
def waitForElementRun (sc : ObsScenario) : List ObsAction × Bool :=
  observerWaitRun sc

/-- `waitForClass(element, className, timeout)` (`content_script.js:111-134`),
with the predicate `element.classList.contains(className)` abstracted into
the scenario. -/
def waitForClassRun (sc : ObsScenario) : List ObsAction × Bool :=
  observerWaitRun sc

/-- The `File` object built by `arrayBufferToFile`
(`content_script.js:156-164`): name, MIME type, byte size. -/
structure FileObj where
  name : String
  type : String
  size : Nat
deriving DecidableEq

/-- `arrayBufferToFile(arrayBuffer, filename, mimeType)`
(`content_script.js:156-164`): wraps the bytes into a file-like object with
exactly the given name and type. -/
def arrayBufferToFile (arrayBuffer : List Nat) (filename mimeType : String) : FileObj :=
  { name := filename, type := mimeType, size := arrayBuffer.length }

/-- JavaScript `a || b` for an optional string `a` (`undefined`/`null`
modelled as `none`; the empty string is also falsy). -/
def jsOrString : Option String → String → String
  | none, d => d
  | some s, d => if s = "" then d else s

/-- Kinds of synthetic events the script dispatches. -/
inductive EvKind where
  | dragenter
  | dragover
  | drop
  | dragleave
  | focus
  | keydown
  | keyup
deriving DecidableEq

/-- Dispatch target: the originally located drop zone (`findDropZone`),
the refined `.DropTarget` element, or a button. -/
inductive EvTarget where
  | originalZone
  | dropTarget
  | button (b : ButtonEl)
deriving DecidableEq

/-- One synthetic event dispatch: kind, target, drag payload (the
`DataTransfer` file, when the event carries one), and whether a
`preventDefault` once-listener was installed so default handling is
suppressed for this dispatch. -/
structure Dispatch where
  kind : EvKind
  target : EvTarget
  payload : Option FileObj
  prevented : Bool
deriving DecidableEq

/-- Observable actions of a run: an event dispatch or a fixed sleep. -/
inductive Action where
  | ev (d : Dispatch)
  | sleep (ms : Nat)
deriving DecidableEq

/-- Environment nondeterminism of one orchestration run: whether
`findDropZone` finds any of its four selectors, whether the refined
`.DropTarget` element appears within its 3000 ms safety timeout, whether
the preview modal appears within its 5000 ms timeout, the button set
visible at the send stage, and whether the preview modal closes within the
2000 ms post-click timeout. -/
structure Scenario where
  dropZoneFound : Bool
  dropTargetAppears : Bool
  previewAppears : Bool
  buttons : List ButtonEl
  modalCloses : Bool

/-- The preview-modal selector `config.selectors.previewModal`
(`content_script.js:18`). -/
def previewModalSel : String := ".modal, [role=\"dialog\"]"

/-- `uploadViaDragAndDrop(file)` (`content_script.js:203-299`) as a trace
semantics.  `findDropZone` failing throws at once (no events).  Otherwise:
one `dragenter` on the original zone (no `preventDefault` listener), then a
`waitForElement` for `.DropTarget` whose timeout is swallowed (the zone is
only switched when the refined target appears), three `dragover` events each
with a `preventDefault` once-listener and 50 ms sleeps between consecutive
ones, one `drop` with `preventDefault`, one `dragleave`, and finally the
preview-modal wait whose timeout is fatal. -/
def uploadViaDragAndDrop (file : FileObj) (sc : Scenario) :
    List Action × Except String Unit :=
  if sc.dropZoneFound then
    let z := if sc.dropTargetAppears then EvTarget.dropTarget else EvTarget.originalZone
    let evs : List Action :=
      [ .ev ⟨.dragenter, .originalZone, some file, false⟩,
        .ev ⟨.dragover, z, some file, true⟩, .sleep 50,
        .ev ⟨.dragover, z, some file, true⟩, .sleep 50,
        .ev ⟨.dragover, z, some file, true⟩,
        .ev ⟨.drop, z, some file, true⟩,
        .ev ⟨.dragleave, z, some file, false⟩ ]
    if sc.previewAppears then (evs, .ok ())
    else (evs, .error ("Element not found: " ++ previewModalSel ++ " (timeout after 5000ms)"))
  else ([], .error "No drop zone found. Make sure you have a chat open.")

/-- `performClick(element)` (`content_script.js:304-331`): focus the control,
then dispatch an Enter `keydown` / `keyup` pair; dispatch errors are caught. -/
def performClick (b : ButtonEl) : List Action :=
  [ .ev ⟨.focus, .button b, none, false⟩,
    .ev ⟨.keydown, .button b, none, false⟩,
    .ev ⟨.keyup, .button b, none, false⟩ ]

/-- `clickSendButton()` (`content_script.js:337-417`): `waitUntil` a visible
primary send button exists (timeout 5000 ms, fatal, wrapped as
`Failed to click send: ...`); then re-locate via `findSendButton` (with the
line-389 throw also wrapped); then `performClick`; the final wait for the
modal to close is caught and non-fatal.  Buttons are modelled as the stable
visible set of the scenario. -/
def clickSendButton (sc : Scenario) : List Action × Except String Unit :=
  if ((sc.buttons.filter (fun b => b.visible)).find? isPrimarySend).isSome then
    match findSendButton sc.buttons with
    | some b => (performClick b, .ok ())
    | none =>
      ([], .error "Failed to click send: Send button not found despite passing waitUntil check")
  else
    ([], .error "Failed to click send: Timeout waiting for condition after 5000ms")

/-- The `data` argument of `uploadPhoto`: optional fields model
absent/falsy JavaScript values. -/
structure UploadData where
  arrayBuffer : Option (List Nat)
  filename : Option String
  mimeType : Option String

/-- The structured result `uploadPhoto` returns (`content_script.js:459-476`). -/
structure UploadResult where
  success : Bool
  message : Option String
  error : Option String
  duration : Nat
deriving DecidableEq

/-- The `try` block of `uploadPhoto` (`content_script.js:425-453`): validate
the input, materialize the file with `"image.png"` / `"image/png"` defaults
for falsy fields, run the drag-and-drop sequence, then click send.  Any
thrown error is the `Except.error` value. -/
def uploadPhotoTry (data : Option UploadData) (sc : Scenario) :
    List Action × Except String Unit :=
  match data with
  | none => ([], .error "Invalid data: arrayBuffer is required")
  | some d =>
    match d.arrayBuffer with
    | none => ([], .error "Invalid data: arrayBuffer is required")
    | some buf =>
      let file := arrayBufferToFile buf
        (jsOrString d.filename "image.png") (jsOrString d.mimeType "image/png")
      match uploadViaDragAndDrop file sc with
      | (tr, .error e) => (tr, .error e)
      | (tr, .ok _) =>
        match clickSendButton sc with
        | (tr2, .error e) => (tr ++ tr2, .error e)
        | (tr2, .ok _) => (tr ++ tr2, .ok ())

/-- `uploadPhoto(data)` (`content_script.js:422-477`): the catch-all wrapper
turning the try block's outcome into an `UploadResult`; `t` is the elapsed
model time `Date.now() - startTime` at return. -/
def uploadPhoto (data : Option UploadData) (sc : Scenario) (t : Nat) :
    List Action × UploadResult :=
  match uploadPhotoTry data sc with
  | (tr, .ok _) =>
    (tr, { success := true, message := some "Photo uploaded successfully",
           error := none, duration := t })
  | (tr, .error e) =>
    (tr, { success := false, message := none, error := some e, duration := t })

/-- A message-bus request (`chrome.runtime.onMessage`). -/
structure Request where
  action : String
  data : Option UploadData

/-- Page-environment facts probed by `isValidTelegramPage`. -/
structure PageEnv where
  href : String
  hasChatContent : Bool

/-- `isValidTelegramPage()` (`content_script.js:482-488`): the URL contains
`web.telegram.org` and a chat-content element exists. -/
def isValidTelegramPage (env : PageEnv) : Bool :=
  strContains env.href "web.telegram.org" && env.hasChatContent

/-- A message-bus response as sent through `sendResponse`; fields the
listener does not set are `none`. -/
structure Response where
  success : Bool
  message : Option String
  error : Option String
  duration : Option Nat
deriving DecidableEq

/-- The response sent at `content_script.js:497-500` when the environment
precondition fails: no `duration` field is included. -/
def invalidPageResponse : Response :=
  { success := false, message := none,
    error := some "Not on a valid Telegram chat page. Please open a chat first.",
    duration := none }

/-- Serialization of an `UploadResult` into the response object
(field-for-field; `duration` is present). -/
def resultToResponse (r : UploadResult) : Response :=
  { success := r.success, message := r.message, error := r.error,
    duration := some r.duration }

/-- The `chrome.runtime.onMessage` listener (`content_script.js:492-524`):
dispatch on `request.action`, check the page precondition before running
`uploadPhoto`, answer `ping`, and reject unknown actions.  Returns the
actions performed and the response passed to `sendResponse` (`none` would
mean no response was produced). -/
def onMessage (req : Request) (env : PageEnv) (sc : Scenario) (t : Nat) :
    List Action × Option Response :=
  if req.action = "uploadPhoto" then
    if isValidTelegramPage env then
      ((uploadPhoto req.data sc t).1, some (resultToResponse (uploadPhoto req.data sc t).2))
    else ([], some invalidPageResponse)
  else if req.action = "ping" then
    ([], some { success := true, message := some "Content script is ready",
                error := none, duration := none })
  else
    ([], some { success := false, message := none,
                error := some ("Unknown action: " ++ req.action), duration := none })

/-- A visible send button carrying only generic style markers (its class
does not contain `"primary"`). -/
def sendSecondary : ButtonEl := ⟨"Send", "Button secondary-button", true⟩

/-- A visible send button carrying the primary style marker. -/
def sendPrimary : ButtonEl := ⟨"Send", "Button primary-button", true⟩

/-- A page environment satisfying the precondition. -/
def env0 : PageEnv := ⟨"https://web.telegram.org/a/", true⟩

/-- A page environment violating the precondition (wrong host, no chat). -/
def envBad : PageEnv := ⟨"https://example.com/", false⟩

/-- A fully cooperative environment scenario. -/
def scen0 : Scenario := ⟨true, true, true, [sendSecondary, sendPrimary], true⟩

/-- A scenario in which the refined `.DropTarget` never appears but the
preview modal does and a send button is available. -/
def scenNoRefined : Scenario := ⟨true, false, true, [sendSecondary, sendPrimary], true⟩

/-- Upload data with a payload but falsy filename and MIME type. -/
def data0 : UploadData := ⟨some [0, 1, 2], none, some ""⟩

/-- Upload data with a payload, a missing filename but a supplied MIME
type: only the filename default applies. -/
def dataMixed : UploadData := ⟨some [0, 1, 2], none, some "image/jpeg"⟩

/-- A predicate that returns `false` on the first check and throws on the
second poll tick. -/
def c2cond : Nat → Except String Bool :=
  fun n => if n = 0 then Except.ok false else Except.error "boom"

/-- An observer scenario: predicate false at call time, one mutation batch
at time 1 (before the timeout 10) after which the predicate holds. -/
def c3scenario : ObsScenario := ⟨false, [1], fun t => decide (t = 1), 10⟩

/-- A concrete materialized file used by witnesses. -/
def file0 : FileObj := arrayBufferToFile [0, 1, 2] "photo.png" "image/png"

theorem waitUntilAux_error_reach
    (cond : Nat → Except String Bool) (timeout interval k : Nat) (e : String)
    (hcond : ∀ m, m < k → cond m = .ok false)
    (htime : ∀ m, m < k → m * interval < timeout)
    (herr : cond k = .error e) :
    ∀ fuel n, n ≤ k → k < n + fuel →
      waitUntilAux cond timeout interval fuel n =
        (if k = 0 then .rejectedErr e 0 else .uncaught e k) := by
  intro fuel
  induction fuel with
  | zero => intro n hn hlt; omega
  | succ fuel ih =>
    intro n hn hlt
    rcases Nat.lt_or_ge n k with hnk | hnk
    · have hc := hcond n hnk
      have ht := htime n hnk
      simp only [waitUntilAux, hc]
      rw [if_neg (by omega)]
      exact ih (n + 1) hnk (by omega)
    · have hk : n = k := le_antisymm hn hnk
      subst hk
      simp only [waitUntilAux, herr]

theorem findSendButton_of_primary (bs : List ButtonEl) (b : ButtonEl)
    (h : (bs.filter (fun x => x.visible)).find? isPrimarySend = some b) :
    findSendButton bs = some b := by
  unfold findSendButton
  simp only [h]

theorem uploadViaDragAndDrop_ok (f : FileObj) (sc : Scenario)
    (hz : sc.dropZoneFound = true) (hp : sc.previewAppears = true) :
    (uploadViaDragAndDrop f sc).2 = Except.ok () := by
  simp [uploadViaDragAndDrop, hz, hp]

theorem clickSendButton_ok (sc : Scenario) (b : ButtonEl)
    (hb : (sc.buttons.filter (fun x => x.visible)).find? isPrimarySend = some b) :
    clickSendButton sc = (performClick b, Except.ok ()) := by
  simp [clickSendButton, hb, findSendButton_of_primary sc.buttons b hb]

theorem uploadPhoto_fst (data : Option UploadData) (sc : Scenario) (t : Nat) :
    (uploadPhoto data sc t).1 = (uploadPhotoTry data sc).1 := by
  unfold uploadPhoto
  rcases h : uploadPhotoTry data sc with ⟨tr, r⟩
  cases r <;> simp

/-- C4: whenever some visible control passes the primary send
classification, `findSendButton` returns the first such control — the
primary classification is exhausted before any fallback is consulted, so a
non-primary send control earlier in document order is never preferred over
a later primary one. -/
theorem c4_primary_classification_first (bs : List ButtonEl) (b : ButtonEl)
    (h : (bs.filter (fun x => x.visible)).find? isPrimarySend = some b) :
    findSendButton bs = some b :=
  findSendButton_of_primary bs b h

theorem c4_witness :
    ([sendSecondary, sendPrimary].filter (fun x => x.visible)).find? isPrimarySend
        = some sendPrimary ∧
      findSendButton [sendSecondary, sendPrimary] = some sendPrimary :=
  ⟨by decide,
   c4_primary_classification_first [sendSecondary, sendPrimary] sendPrimary (by decide)⟩

/-- C5: every run of the drag-and-drop sequencer that reaches the drop
stage (i.e. a drop zone was found) dispatches exactly: one `dragenter`,
three `dragover` events each with default handling suppressed and spaced
by 50 ms sleeps, one `drop` with default handling suppressed, then one
`dragleave` — in that order, on the current drop surface `z`. -/
theorem c5_drag_event_sequence (file : FileObj) (sc : Scenario) (z : EvTarget)
    (hz : sc.dropZoneFound = true)
    (hdz : z = if sc.dropTargetAppears then EvTarget.dropTarget else EvTarget.originalZone) :
    (uploadViaDragAndDrop file sc).1 =
      [ Action.ev ⟨EvKind.dragenter, EvTarget.originalZone, some file, false⟩,
        Action.ev ⟨EvKind.dragover, z, some file, true⟩, Action.sleep 50,
        Action.ev ⟨EvKind.dragover, z, some file, true⟩, Action.sleep 50,
        Action.ev ⟨EvKind.dragover, z, some file, true⟩,
        Action.ev ⟨EvKind.drop, z, some file, true⟩,
        Action.ev ⟨EvKind.dragleave, z, some file, false⟩ ] := by
  subst hdz
  by_cases hp : sc.previewAppears <;> simp [uploadViaDragAndDrop, hz, hp]

theorem c5_witness :
    (uploadViaDragAndDrop file0 scen0).1 =
      [ Action.ev ⟨EvKind.dragenter, EvTarget.originalZone, some file0, false⟩,
        Action.ev ⟨EvKind.dragover, EvTarget.dropTarget, some file0, true⟩, Action.sleep 50,
        Action.ev ⟨EvKind.dragover, EvTarget.dropTarget, some file0, true⟩, Action.sleep 50,
        Action.ev ⟨EvKind.dragover, EvTarget.dropTarget, some file0, true⟩,
        Action.ev ⟨EvKind.drop, EvTarget.dropTarget, some file0, true⟩,
        Action.ev ⟨EvKind.dragleave, EvTarget.dropTarget, some file0, false⟩ ] :=
  c5_drag_event_sequence file0 scen0 EvTarget.dropTarget rfl (by decide)

/-- C8: a message-bus request whose action is neither `"uploadPhoto"` nor
`"ping"` is answered with exactly `success := false` and
`Unknown action: <action>` (the received action interpolated), no other
fields, and performs no actions. -/
theorem c8_unknown_action_response (req : Request) (env : PageEnv) (sc : Scenario) (t : Nat)
    (h1 : req.action ≠ "uploadPhoto") (h2 : req.action ≠ "ping") :
    onMessage req env sc t =
      ([], some { success := false, message := none,
                  error := some ("Unknown action: " ++ req.action), duration := none }) := by
  simp [onMessage, h1, h2]

theorem c8_witness :
    onMessage ⟨"foo", none⟩ env0 scen0 0 =
      ([], some { success := false, message := none,
                  error := some "Unknown action: foo", duration := none }) := by
  have h := c8_unknown_action_response ⟨"foo", none⟩ env0 scen0 0 (by decide) (by decide)
  simpa using h

/-- C10: calling `uploadPhoto` with `null`/`undefined` data or data lacking
an `arrayBuffer` field returns `success := false`,
`error := "Invalid data: arrayBuffer is required"` together with the
elapsed duration, dispatches no synthetic events, and does not throw. -/
theorem c10_missing_array_buffer (data : Option UploadData) (sc : Scenario) (t : Nat)
    (h : data = none ∨ ∃ d, data = some d ∧ d.arrayBuffer = none) :
    uploadPhoto data sc t =
      ([], { success := false, message := none,
             error := some "Invalid data: arrayBuffer is required", duration := t }) := by
  rcases h with h | ⟨d, hd, hbuf⟩
  · subst h; rfl
  · subst hd
    simp [uploadPhoto, uploadPhotoTry, hbuf]

theorem c10_witness :
    uploadPhoto none scen0 5 =
      ([], { success := false, message := none,
             error := some "Invalid data: arrayBuffer is required", duration := 5 }) :=
  c10_missing_array_buffer none scen0 5 (Or.inl rfl)

/-- C1 counterexample: for the concrete upload request arriving with an
invalid environment (wrong host, no chat content), the listener's response
carries NO duration field at all (`duration = none`), contradicting the
claim that the returned result has a duration greater than or equal to 0:
the precondition check happens in the message listener before `uploadPhoto`
ever runs, and that response object has no `duration` property. -/
theorem c1_counterexample :
    ((onMessage ⟨"uploadPhoto", none⟩ ⟨"https://example.com/", false⟩
        ⟨true, true, true, [], true⟩ 3).2.map Response.duration) = some none := by
  decide

/-- C1 (amended): for every upload request arriving when the environment
precondition fails, the listener dispatches no synthetic events and
responds with `success := false` and an error message containing
`"valid"`, but the response carries no duration field. -/
theorem c1_invalid_environment_response (req : Request) (env : PageEnv)
    (sc : Scenario) (t : Nat)
    (hact : req.action = "uploadPhoto") (henv : isValidTelegramPage env = false) :
    onMessage req env sc t = ([], some invalidPageResponse) ∧
    invalidPageResponse.success = false ∧
    (invalidPageResponse.error.map (fun e => strContains e "valid")) = some true ∧
    invalidPageResponse.duration = none := by
  refine ⟨?_, rfl, by decide, rfl⟩
  simp [onMessage, hact, henv]

theorem c1_witness :
    onMessage ⟨"uploadPhoto", none⟩ envBad scen0 3 = ([], some invalidPageResponse) ∧
    invalidPageResponse.success = false ∧
    (invalidPageResponse.error.map (fun e => strContains e "valid")) = some true ∧
    invalidPageResponse.duration = none :=
  c1_invalid_environment_response ⟨"uploadPhoto", none⟩ envBad scen0 3 rfl (by decide)

/-- C6: when the refined drop-target wait times out (the `.DropTarget`
element never appears) in a run that found a drop zone and whose preview
modal later appears, the sequencer does not abort: the `dragover`, `drop`
and `dragleave` events are all dispatched on the originally located
surface and the sequencer returns success; and the whole `uploadPhoto` run
still reports success when a primary send control is also available. -/
theorem c6_refined_target_timeout_nonfatal (file : FileObj) (sc : Scenario)
    (d : UploadData) (buf : List Nat) (b : ButtonEl) (t : Nat)
    (h1 : sc.dropZoneFound = true) (h2 : sc.dropTargetAppears = false)
    (h3 : sc.previewAppears = true) (hbuf : d.arrayBuffer = some buf)
    (hb : (sc.buttons.filter (fun x => x.visible)).find? isPrimarySend = some b) :
    uploadViaDragAndDrop file sc =
      ([ Action.ev ⟨EvKind.dragenter, EvTarget.originalZone, some file, false⟩,
         Action.ev ⟨EvKind.dragover, EvTarget.originalZone, some file, true⟩, Action.sleep 50,
         Action.ev ⟨EvKind.dragover, EvTarget.originalZone, some file, true⟩, Action.sleep 50,
         Action.ev ⟨EvKind.dragover, EvTarget.originalZone, some file, true⟩,
         Action.ev ⟨EvKind.drop, EvTarget.originalZone, some file, true⟩,
         Action.ev ⟨EvKind.dragleave, EvTarget.originalZone, some file, false⟩ ],
       Except.ok ()) ∧
    (uploadPhoto (some d) sc t).2.success = true := by
  constructor
  · simp [uploadViaDragAndDrop, h1, h2, h3]
  · have hcs := clickSendButton_ok sc b hb
    simp [uploadPhoto, uploadPhotoTry, hbuf, uploadViaDragAndDrop, h1, h2, h3, hcs]

theorem c6_witness :
    uploadViaDragAndDrop file0 scenNoRefined =
      ([ Action.ev ⟨EvKind.dragenter, EvTarget.originalZone, some file0, false⟩,
         Action.ev ⟨EvKind.dragover, EvTarget.originalZone, some file0, true⟩, Action.sleep 50,
         Action.ev ⟨EvKind.dragover, EvTarget.originalZone, some file0, true⟩, Action.sleep 50,
         Action.ev ⟨EvKind.dragover, EvTarget.originalZone, some file0, true⟩,
         Action.ev ⟨EvKind.drop, EvTarget.originalZone, some file0, true⟩,
         Action.ev ⟨EvKind.dragleave, EvTarget.originalZone, some file0, false⟩ ],
       Except.ok ()) ∧
    (uploadPhoto (some data0) scenNoRefined 42).2.success = true :=
  c6_refined_target_timeout_nonfatal file0 scenNoRefined data0 [0, 1, 2] sendPrimary 42
    rfl rfl rfl rfl (by decide)

/-- C9: for every job whose data has an `arrayBuffer`, the file carried by
the dispatched drag events is materialized with name
`jsOrString filename "image.png"` and type `jsOrString mimeType "image/png"`
(and the payload's byte length), so each default applies independently: a
missing or falsy filename yields the name `"image.png"` whatever the MIME
type is, and a missing or falsy MIME type yields the type `"image/png"`
whatever the filename is; the defaults are applied before conversion
rather than treated as an error. -/
theorem c9_default_filename_mime (d : UploadData) (sc : Scenario) (t : Nat)
    (buf : List Nat) (hbuf : d.arrayBuffer = some buf)
    (hz : sc.dropZoneFound = true) :
    (uploadPhoto (some d) sc t).1.head? =
      some (Action.ev ⟨EvKind.dragenter, EvTarget.originalZone,
        some ⟨jsOrString d.filename "image.png",
              jsOrString d.mimeType "image/png", buf.length⟩, false⟩) ∧
    ((d.filename = none ∨ d.filename = some "") →
      jsOrString d.filename "image.png" = "image.png") ∧
    ((d.mimeType = none ∨ d.mimeType = some "") →
      jsOrString d.mimeType "image/png" = "image/png") := by
  refine ⟨?_, ?_, ?_⟩
  · rw [uploadPhoto_fst]
    unfold uploadPhotoTry
    simp only [hbuf, arrayBufferToFile]
    rcases hcs : clickSendButton sc with ⟨tr2, r2⟩
    by_cases hp : sc.previewAppears <;>
      cases r2 <;>
        simp [uploadViaDragAndDrop, hz, hp, hcs]
  · rintro (h | h) <;> simp [jsOrString, h]
  · rintro (h | h) <;> simp [jsOrString, h]

theorem c9_witness :
    (uploadPhoto (some dataMixed) scen0 7).1.head? =
      some (Action.ev ⟨EvKind.dragenter, EvTarget.originalZone,
        some ⟨"image.png", "image/jpeg", 3⟩, false⟩) := by
  have h := c9_default_filename_mime dataMixed scen0 7 [0, 1, 2] rfl rfl
  have h1 := h.1
  rw [h.2.1 (Or.inl rfl)] at h1
  simpa [jsOrString, dataMixed] using h1

/-- C7: `uploadPhoto` always returns a structured result and never lets an
exception escape: either it succeeds with no error field, or the error
thrown inside the try block is captured verbatim into the result's error
field; and the message-bus listener produces a response object for every
request. -/
theorem c7_errors_captured_no_escape (data : Option UploadData) (sc : Scenario)
    (t : Nat) (req : Request) (env : PageEnv) :
    (((uploadPhoto data sc t).2.success = true ∧ (uploadPhoto data sc t).2.error = none) ∨
      (∃ e, (uploadPhotoTry data sc).2 = Except.error e ∧
        (uploadPhoto data sc t).2.success = false ∧
        (uploadPhoto data sc t).2.error = some e)) ∧
    (onMessage req env sc t).2.isSome = true := by
  constructor
  · rcases h : uploadPhotoTry data sc with ⟨tr, r⟩
    cases r with
    | ok u => left; simp [uploadPhoto, h]
    | error e =>
      right
      exact ⟨e, by simp [h], by simp [uploadPhoto, h], by simp [uploadPhoto, h]⟩
  · by_cases h1 : req.action = "uploadPhoto"
    · by_cases h2 : isValidTelegramPage env <;> simp [onMessage, h1, h2]
    · by_cases h3 : req.action = "ping" <;> simp [onMessage, h1, h3]

/-- C2 counterexample: with a predicate that returns `false` on the
immediate first check and throws on the first later poll tick, the wait
does NOT reject the promise with the error: the exception escapes the
`setTimeout` callback to the event loop (outcome `uncaught`) and the
promise never settles. -/
theorem c2_counterexample :
    waitUntil c2cond 1000 100 = WaitOutcome.uncaught "boom" 1 ∧
    waitUntil c2cond 1000 100 ≠ WaitOutcome.rejectedErr "boom" 1 := by
  decide

/-- C2 (amended): if the predicate of `waitUntil` throws at the first poll
tick it is evaluated (all earlier ticks returning `false` before the
timeout), then: on the immediate first check the promise rejects with that
error; on any later tick the error instead escapes as an uncaught
exception and the promise never settles; in both cases polling stops at
that tick — the outcome does not depend on the predicate's behaviour
beyond the throwing tick. -/
theorem c2_predicate_throw_behaviour (cond : Nat → Except String Bool)
    (timeout interval k : Nat) (e : String) (hint : 1 ≤ interval)
    (hcond : ∀ m, m < k → cond m = Except.ok false)
    (htime : ∀ m, m < k → m * interval < timeout)
    (herr : cond k = Except.error e) :
    waitUntil cond timeout interval =
      (if k = 0 then WaitOutcome.rejectedErr e 0 else WaitOutcome.uncaught e k) ∧
    ∀ cond2, (∀ m, m ≤ k → cond2 m = cond m) →
      waitUntil cond2 timeout interval = waitUntil cond timeout interval := by
  have hk : k ≤ timeout := by
    rcases Nat.eq_zero_or_pos k with h0 | h0
    · omega
    · have h1 := htime (k - 1) (by omega)
      have h2 : (k - 1) * 1 ≤ (k - 1) * interval := Nat.mul_le_mul_left _ hint
      omega
  have hmain := waitUntilAux_error_reach cond timeout interval k e hcond htime herr
    (timeout + 1) 0 (Nat.zero_le k) (by omega)
  refine ⟨hmain, ?_⟩
  intro cond2 hagree
  have hcond2 : ∀ m, m < k → cond2 m = Except.ok false := fun m hm => by
    rw [hagree m (le_of_lt hm)]; exact hcond m hm
  have herr2 : cond2 k = Except.error e := by
    rw [hagree k (le_refl k)]; exact herr
  have hmain2 := waitUntilAux_error_reach cond2 timeout interval k e hcond2 htime herr2
    (timeout + 1) 0 (Nat.zero_le k) (by omega)
  unfold waitUntil
  rw [hmain2, hmain]

theorem c2_witness :
    (1 : Nat) ≤ 100 ∧ waitUntil c2cond 1000 100 = WaitOutcome.uncaught "boom" 1 := by
  refine ⟨by decide, ?_⟩
  have h := (c2_predicate_throw_behaviour c2cond 1000 100 1 "boom" (by decide)
    (by intro m hm; have hm0 : m = 0 := Nat.lt_one_iff.mp hm; subst hm0; rfl)
    (by intro m hm; have hm0 : m = 0 := Nat.lt_one_iff.mp hm; subst hm0; decide) (by rfl)).1
  simpa using h

/-- C3 counterexample: in a run of `waitForElement` where the element
appears via a mutation batch before the timeout, the observer is
disconnected TWICE — once by the observer callback on success and once
more when the never-canceled safety timer later fires (which also calls
the promise's reject, by then a no-op) — contradicting both "released
exactly once" and "all timers canceled on exit". -/
theorem c3_counterexample :
    (waitForElementRun c3scenario).1 =
      [ObsAction.subscribe, ObsAction.disconnect, ObsAction.resolve,
       ObsAction.timerFires, ObsAction.disconnect, ObsAction.reject] ∧
    (waitForElementRun c3scenario).1.countP (fun a => decide (a = ObsAction.disconnect)) = 2 := by
  decide

/-- C3 (amended): `waitForElement` and `waitForClass` (whose runtime
behaviour is identical) always leave the observation subscription
disconnected on every exit path, but not exactly once: when the
predicate holds at call time no subscription or timer is created at all;
otherwise exactly one subscription is made, the safety timer always fires
(it is never canceled), and disconnect is called twice on the success path
(callback, then timer) and once on the timeout path. -/
theorem c3_subscription_teardown (sc : ObsScenario) :
    ((waitForElementRun sc).1.countP (fun a => decide (a = ObsAction.subscribe)) =
      (if sc.holdsNow then 0 else 1)) ∧
    ((waitForElementRun sc).1.countP (fun a => decide (a = ObsAction.timerFires)) =
      (if sc.holdsNow then 0 else 1)) ∧
    ((waitForElementRun sc).1.countP (fun a => decide (a = ObsAction.disconnect)) =
      (if sc.holdsNow then 0 else if (waitForElementRun sc).2 then 2 else 1)) ∧
    waitForClassRun sc = waitForElementRun sc := by
  unfold waitForElementRun waitForClassRun observerWaitRun
  by_cases h : sc.holdsNow
  · simp [h]
  · rcases hf : (sc.notifications.filter (fun t => decide (t < sc.timeout))).find? sc.holdsAt
        with _ | x <;>
      simp [h, hf]

end TelegramUploader
